import Mathlib

/-!
Verification of the color-extraction pipeline of `src/data_collection/color_analyzer.py`
(class `ColorAnalyzer`).

The pipeline's numeric code is embedded shallowly:
* pixels and cluster centers are `ℕ × ℕ × ℕ` RGB triples (8-bit values);
* floating-point percentages are modelled as rationals `ℚ`;
* the OpenCV `COLOR_RGB2YCrCb` conversion on 8-bit data is modelled by OpenCV's
  fixed-point formula (14-bit coefficients, `CV_DESCALE`, saturating cast);
* the external clustering model (`MiniBatchKMeans`, constructed with
  `n_clusters = 2 * n_colors` and a fixed `random_state = 42`, hence a
  deterministic function of its input) is a function parameter
  `fit : List RGB → List RGB × List ℕ` returning `cluster_centers_` and `labels_`;
* image decoding plus `preprocess_image` (external cv2 calls) is a function
  parameter `read : String → Option (List RGB)` from a path to the flattened
  pixel list of the preprocessed image; `none` models `cv2.imread` returning
  `None` as well as any per-image exception (both paths `continue` in the code);
* Python `dict`s keyed by hex color strings are insertion-ordered association
  lists, exactly as Python guarantees.
-/

abbrev RGB := ℕ × ℕ × ℕ

/-- CV_DESCALE(x, 14): add half and arithmetically shift right by 14 bits.
Arithmetic shift on two's complement is floor division by `2 ^ 14`. -/
def descale (x : ℤ) : ℤ := Int.fdiv (x + 8192) 16384

/-- saturate_cast<uchar>: clamp an integer into [0, 255]. -/
def satCastU8 (x : ℤ) : ℤ := max 0 (min 255 x)

/-- OpenCV `cv2.cvtColor(·, cv2.COLOR_RGB2YCrCb)` on a single 8-bit pixel,
using the integer path: coefficients {4899, 9617, 1868, 11682, 9241} at
shift 14, delta `128 << 14 = 2097152`.  The input triple is interpreted in
RGB order, as the conversion code assumes. -/
def rgb2ycrcb (c : RGB) : ℤ × ℤ × ℤ :=
  let r : ℤ := c.1
  let g : ℤ := c.2.1
  let b : ℤ := c.2.2
  let y := descale (r * 4899 + g * 9617 + b * 1868)
  let cr := satCastU8 (descale ((r - y) * 11682 + 2097152))
  let cb := satCastU8 (descale ((b - y) * 9241 + 2097152))
  (satCastU8 y, cr, cb)

/-- `ColorAnalyzer.is_skin_tone` (lines 65-68): convert the given triple with
`COLOR_RGB2YCrCb` and test the box `ycrcb_min = [0,133,77]`,
`ycrcb_max = [255,173,127]` componentwise. -/
def is_skin_tone (c : RGB) : Bool :=
  let v := rgb2ycrcb c
  decide (0 ≤ v.1) && decide (v.1 ≤ 255) &&
  decide (133 ≤ v.2.1) && decide (v.2.1 ≤ 173) &&
  decide (77 ≤ v.2.2) && decide (v.2.2 ≤ 127)

/-- Lower-case hex digits, as produced by Python's `%02x` (digit `d` of a
value below 16 is `Nat.digitChar d`). -/
def hexDigitChars : List Char :=
  (List.range 16).map Nat.digitChar

/-- `%02x` applied to a byte value (two lower-case hex digits). -/
def byteToHex (n : ℕ) : List Char :=
  [hexDigitChars.getD (n / 16) '0', hexDigitChars.getD (n % 16) '0']

/-- `'#%02x%02x%02x' % (r, g, b)` (line 93). -/
def toHex (r g b : ℕ) : String :=
  String.mk ('#' :: (byteToHex r ++ byteToHex g ++ byteToHex b))

/-- Value of one hex digit character, as `int(·, 16)` reads it
(only lower-case digits occur, since `toHex` produces them). -/
def hexDigitVal (c : Char) : ℕ :=
  (hexDigitChars.indexOf? c).getD 0

/-- `int(s[i:i+2], 16)` for a two-character slice of a hex color string. -/
def parseHexByte (cs : List Char) (i : ℕ) : ℕ :=
  16 * hexDigitVal (cs.getD i '0') + hexDigitVal (cs.getD (i + 1) '0')

/-- Line 128: `np.array([int(color[i:i+2], 16) for i in (5, 3, 1)])` — parse
the hex string `#rrggbb` at positions 5, 3, 1, producing the triple in
(blue, green, red) order. -/
def hexToBGR (s : String) : RGB :=
  let cs := s.toList
  (parseHexByte cs 5, parseHexByte cs 3, parseHexByte cs 1)

/-- `np.bincount(labels)`: occurrence counts of `0 .. max labels`;
empty input gives an empty array. -/
def bincount (l : List ℕ) : List ℕ :=
  if l = [] then [] else (List.range (l.foldr max 0 + 1)).map (fun i => l.count i)

/-- `np.clip(center, 0, 255)` followed by `astype(np.uint8)` on a
componentwise-natural center (the lower clip is vacuous on `ℕ`). -/
def clip255 (c : RGB) : RGB := (min c.1 255, min c.2.1 255, min c.2.2 255)

/-- Configuration fields of `ColorAnalyzer.__init__` that the arithmetic
depends on.  `resize_size`, `batch_size` and `n_jobs` only parameterize the
external resize / the batch slicing (which visits each path exactly once, in
list order) / threading, so they do not appear in the embedded state. -/
structure Config where
  n_colors : ℕ
  min_area_percentage : ℚ
deriving DecidableEq

/-- `ColorAnalyzer.extract_colors` (lines 70-96) after the external
`cv2.resize` and `reshape(-1, 3)`: `pixels` is the flattened pixel list and
`fit` the fitted clustering model, returning `(cluster_centers_, labels_)`.
Centers are clipped to [0,255], cast to `uint8` and formatted as hex strings;
percentages are `bincount(labels) / len(pixels) * 100`. -/
def extract_colors (fit : List RGB → List RGB × List ℕ) (pixels : List RGB) :
    List String × List ℚ :=
  let centers := ((fit pixels).1).map clip255
  let labels := (fit pixels).2
  let counts := bincount labels
  let percentages := counts.map (fun (k : ℕ) => (k : ℚ) / (pixels.length : ℚ) * 100)
  let colors := centers.map (fun c => toHex c.1 c.2.1 c.2.2)
  (colors, percentages)

/-- Lines 124-130 of `process_image_batch`: zip colors with percentages, keep
an observation when its percentage is at least `min_area_percentage` and the
hex-parsed (B, G, R) triple is not classified by `is_skin_tone`. -/
def filtered_results (cfg : Config) (colors : List String) (percentages : List ℚ) :
    List (String × ℚ) :=
  (colors.zip percentages).filter
    (fun cp => decide (cfg.min_area_percentage ≤ cp.2) && ! is_skin_tone (hexToBGR cp.1))

/-- The per-image retained observation list: `extract_colors` followed by the
filtering loop, i.e. the value bound to `filtered_results` for one image
(lines 121-130). -/
def image_results (cfg : Config) (fit : List RGB → List RGB × List ℕ)
    (pixels : List RGB) : List (String × ℚ) :=
  filtered_results cfg (extract_colors fit pixels).1 (extract_colors fit pixels).2

/-- One iteration of the per-path loop of `process_image_batch`
(lines 109-132): decode and preprocess the image, extract colors, filter.
`none` models a failed read or a per-image exception (both are skipped). -/
def process_path (cfg : Config) (fit : List RGB → List RGB × List ℕ)
    (read : String → Option (List RGB)) (path : String) : Option (List (String × ℚ)) :=
  (read path).map (image_results cfg fit)

/-- Accumulated `color_data`: insertion-ordered association list from hex
color to `(count, total_percentage)`, mirroring the Python `defaultdict`. -/
abbrev ColorData := List (String × ℕ × ℚ)

/-- Lines 142-143: `color_data[color]['count'] += 1` and
`color_data[color]['total_percentage'] += percentage` on a `defaultdict` —
update the entry in place if the key exists (keys are unique, so updating the
first occurrence is the dict update), else append the fresh entry at the end,
which is where Python's insertion-ordered dict places a new key. -/
def addObs (m : ColorData) (c : String) (p : ℚ) : ColorData :=
  match m with
  | [] => [(c, 1, p)]
  | e :: rest =>
    if e.1 = c then (e.1, e.2.1 + 1, e.2.2 + p) :: rest else e :: addObs rest c p

/-- Aggregate every observation of one image into `color_data`
(lines 140-143). -/
def addImage (m : ColorData) (obs : List (String × ℚ)) : ColorData :=
  obs.foldl (fun acc o => addObs acc o.1 o.2) m

/-- Loop body of `process_image_batch` for one path: a failed read leaves the
accumulator unchanged (skip-and-continue); a successful image adds its
filtered observations and increments `total_images`. -/
def pibStep (cfg : Config) (fit : List RGB → List RGB × List ℕ)
    (read : String → Option (List RGB)) (acc : ColorData × ℕ) (path : String) :
    ColorData × ℕ :=
  match process_path cfg fit read path with
  | none => acc
  | some obs => (addImage acc.1 obs, acc.2 + 1)

/-- `ColorAnalyzer.process_image_batch` (lines 98-153) up to the final
averaging step: fold over the paths in order (the batch slicing concatenates
to the same order), returning `color_data` with running
`(count, total_percentage)` and the number of successfully processed images. -/
def process_image_batch (cfg : Config) (fit : List RGB → List RGB × List ℕ)
    (read : String → Option (List RGB)) (paths : List String) : ColorData × ℕ :=
  paths.foldl (pibStep cfg fit read) ([], 0)

/-- Lines 149-151: `average_percentage = total_percentage / count` for every
entry of `color_data`.  The code guards this with `total_images > 0`, but
`color_data` is empty whenever `total_images = 0`, so the unconditional map
is the same function.  Output entries are `(color, count, average)`. -/
def averaged (m : ColorData) : List (String × ℕ × ℚ) :=
  m.map (fun e => (e.1, e.2.1, e.2.2 / (e.2.1 : ℚ)))

/-- Sort key order of line 171-175: Python's
`sorted(items, key=lambda x: (count, average_percentage), reverse=True)`
places `a` before `b` iff `(count, avg)` of `a` is lexicographically at least
that of `b`; ties keep the original order (Python's sort is stable). -/
def colorKeyGE (a b : String × ℕ × ℚ) : Prop :=
  b.2.1 < a.2.1 ∨ (b.2.1 = a.2.1 ∧ b.2.2 ≤ a.2.2)

instance : DecidableRel colorKeyGE := fun a b => by
  unfold colorKeyGE; exact inferInstance

instance : IsTotal (String × ℕ × ℚ) colorKeyGE := by
  constructor
  intro a b
  rcases Nat.lt_trichotomy a.2.1 b.2.1 with h | h | h
  · exact Or.inr (Or.inl h)
  · rcases le_total b.2.2 a.2.2 with h2 | h2
    · exact Or.inl (Or.inr ⟨h.symm, h2⟩)
    · exact Or.inr (Or.inr ⟨h, h2⟩)
  · exact Or.inl (Or.inl h)

instance : IsTrans (String × ℕ × ℚ) colorKeyGE := by
  constructor
  intro a b c hab hbc
  rcases hab with h1 | ⟨e1, l1⟩ <;> rcases hbc with h2 | ⟨e2, l2⟩
  · exact Or.inl (h2.trans h1)
  · exact Or.inl (by rw [e2]; exact h1)
  · exact Or.inl (by rw [← e1]; exact h2)
  · exact Or.inr ⟨e2.trans e1, l2.trans l1⟩

/-- Result shape of `analyze_collection` when images were found:
`{'total_images': …, 'colors': {...}}` with the colors as an ordered list of
`(hex, count, average_percentage)`. -/
structure CollectionStats where
  total_images : ℕ
  colors : List (String × ℕ × ℚ)
deriving DecidableEq

/-- `ColorAnalyzer.analyze_collection` (lines 155-193) on an already-globbed
path list: return `{}` (here `none`) when no image files were found;
otherwise aggregate, sort by `(count, average_percentage)` descending with a
stable sort, truncate to `n_colors`, and report `total_images` as
`len(image_paths)` — the number of files found, not processed. -/
def analyze_collection (cfg : Config) (fit : List RGB → List RGB × List ℕ)
    (read : String → Option (List RGB)) (paths : List String) :
    Option CollectionStats :=
  if paths.isEmpty then none
  else
    let color_data := (process_image_batch cfg fit read paths).1
    let sorted_colors := (List.insertionSort colorKeyGE (averaged color_data)).take cfg.n_colors
    some ⟨paths.length, sorted_colors⟩

/-- Error vocabulary of the specification.  The code defines and raises none
of these: every exception inside the pipeline is caught by a blanket handler. -/
inductive AnalyzerError where
  | noImagesFound
  | noDesignerDirectories
  | persistence
deriving DecidableEq

/-- `analyze_collection` seen through Python's call interface: the body is
wrapped in `try/except Exception` returning `{}`, so the caller always gets a
normal return value, never a raised error. -/
def analyze_collectionE (cfg : Config) (fit : List RGB → List RGB × List ℕ)
    (read : String → Option (List RGB)) (paths : List String) :
    Except AnalyzerError (Option CollectionStats) :=
  Except.ok (analyze_collection cfg fit read paths)

/-- `ColorAnalyzer.create_color_dictionary` (lines 195-240): for each
designer directory, analyze its collection and keep non-empty results; then
`json.dump` the dictionary (`write`).  The surrounding
`try/except Exception: return {}` means a failed write yields `[]`, and an
empty directory list returns `{}` before any write is attempted. -/
def create_color_dictionary (cfg : Config) (fit : List RGB → List RGB × List ℕ)
    (read : String → Option (List RGB)) (filesOf : String → List String)
    (write : List (String × CollectionStats) → Except Unit Unit)
    (designer_dirs : List String) : List (String × CollectionStats) :=
  if designer_dirs.isEmpty then []
  else
    let color_dict := designer_dirs.filterMap
      (fun d => (analyze_collection cfg fit read (filesOf d)).map (fun s => (d, s)))
    match write color_dict with
    | Except.ok _ => color_dict
    | Except.error _ => []

/-- `create_color_dictionary` through Python's call interface: the blanket
`except` guarantees a normal return, so no `PersistenceError` can escape. -/
def create_color_dictionaryE (cfg : Config) (fit : List RGB → List RGB × List ℕ)
    (read : String → Option (List RGB)) (filesOf : String → List String)
    (write : List (String × CollectionStats) → Except Unit Unit)
    (designer_dirs : List String) :
    Except AnalyzerError (List (String × CollectionStats)) :=
  Except.ok (create_color_dictionary cfg fit read filesOf write designer_dirs)

/-- `ColorAnalyzer.analyze_season` (lines 242-265): same aggregation pattern
without the empty-directory check; a failed `json.dump` is likewise caught
and yields `{}`. -/
def analyze_season (cfg : Config) (fit : List RGB → List RGB × List ℕ)
    (read : String → Option (List RGB)) (filesOf : String → List String)
    (write : List (String × CollectionStats) → Except Unit Unit)
    (designer_dirs : List String) : List (String × CollectionStats) :=
  let season_colors := designer_dirs.filterMap
    (fun d => (analyze_collection cfg fit read (filesOf d)).map (fun s => (d, s)))
  match write season_colors with
  | Except.ok _ => season_colors
  | Except.error _ => []

/-- `analyze_season` through Python's call interface. -/
def analyze_seasonE (cfg : Config) (fit : List RGB → List RGB × List ℕ)
    (read : String → Option (List RGB)) (filesOf : String → List String)
    (write : List (String × CollectionStats) → Except Unit Unit)
    (designer_dirs : List String) :
    Except AnalyzerError (List (String × CollectionStats)) :=
  Except.ok (analyze_season cfg fit read filesOf write designer_dirs)

/-! ### Lookup view of the accumulated `color_data`

`CollectionColorStats` is a mapping from color to `(count, average_percentage)`;
the following machinery expresses what the imperative accumulation loop stores
under each key. -/

/-- Value stored under key `c` in `color_data` (`none` when the key is absent). -/
def lookupColor (c : String) (m : ColorData) : Option (ℕ × ℚ) :=
  (m.find? (fun e => decide (e.1 = c))).map (fun e => e.2)

/-- Number of observations of color `c` in one image's retained list. -/
def obsCount (c : String) (obs : List (String × ℚ)) : ℕ :=
  obs.countP (fun o => decide (o.1 = c))

/-- Sum of the percentages of color `c` in one image's retained list. -/
def obsSum (c : String) (obs : List (String × ℚ)) : ℚ :=
  ((obs.filter (fun o => decide (o.1 = c))).map (fun o => o.2)).sum

/-- Combine an existing stored value with `n` further observations of total
percentage `s`. -/
def mergeStats (o : Option (ℕ × ℚ)) (n : ℕ) (s : ℚ) : Option (ℕ × ℚ) :=
  match o with
  | none => if n = 0 then none else some (n, s)
  | some kt => some (kt.1 + n, kt.2 + s)

lemma mergeStats_zero (o : Option (ℕ × ℚ)) : mergeStats o 0 0 = o := by
  cases o <;> simp [mergeStats]

lemma mergeStats_comp (o : Option (ℕ × ℚ)) (n₁ n₂ : ℕ) (s₁ s₂ : ℚ)
    (h : n₁ = 0 → s₁ = 0) :
    mergeStats (mergeStats o n₁ s₁) n₂ s₂ = mergeStats o (n₁ + n₂) (s₁ + s₂) := by
  cases o with
  | none =>
    rcases Nat.eq_zero_or_pos n₁ with h1 | h1
    · subst h1
      rw [h rfl]
      simp [mergeStats]
    · have hne : n₁ ≠ 0 := Nat.pos_iff_ne_zero.mp h1
      have hne2 : n₁ + n₂ ≠ 0 := by omega
      simp [mergeStats, hne, hne2]
  | some kt => simp [mergeStats, Nat.add_assoc, add_assoc]

lemma lookup_addObs (c c' : String) (p : ℚ) (m : ColorData) :
    lookupColor c (addObs m c' p) =
      if c' = c then mergeStats (lookupColor c m) 1 p else lookupColor c m := by
  induction m with
  | nil =>
    by_cases h : c' = c <;> simp [addObs, lookupColor, mergeStats, h]
  | cons e m ih =>
    by_cases he' : e.1 = c'
    · rw [show addObs (e :: m) c' p = (e.1, e.2.1 + 1, e.2.2 + p) :: m from by
        simp [addObs, he']]
      by_cases hc : c' = c
      · have he : e.1 = c := he'.trans hc
        simp [lookupColor, List.find?, he, hc, mergeStats]
      · have he : ¬(e.1 = c) := fun h => hc (he'.symm.trans h)
        simp [lookupColor, List.find?, he, hc]
    · rw [show addObs (e :: m) c' p = e :: addObs m c' p from by simp [addObs, he']]
      by_cases he : e.1 = c
      · have hc : ¬(c' = c) := fun h => he' (he.trans h.symm)
        simp [lookupColor, List.find?, he, hc]
      · unfold lookupColor at ih ⊢
        rw [List.find?_cons_of_neg _ (by simpa using he),
          List.find?_cons_of_neg _ (by simpa using he)]
        exact ih

lemma obsSum_eq_zero_of_count (c : String) (obs : List (String × ℚ))
    (h : obsCount c obs = 0) : obsSum c obs = 0 := by
  unfold obsCount at h
  unfold obsSum
  rw [List.filter_eq_nil_iff.mpr]
  · rfl
  · intro o ho
    have := List.countP_eq_zero.mp h o ho
    simpa using this

lemma lookup_addImage (c : String) (obs : List (String × ℚ)) (m : ColorData) :
    lookupColor c (addImage m obs) =
      mergeStats (lookupColor c m) (obsCount c obs) (obsSum c obs) := by
  induction obs generalizing m with
  | nil => simp [addImage, obsCount, obsSum, mergeStats_zero]
  | cons o obs ih =>
    rw [show addImage m (o :: obs) = addImage (addObs m o.1 o.2) obs from rfl, ih,
      lookup_addObs]
    by_cases h : o.1 = c
    · rw [if_pos h,
        mergeStats_comp _ 1 (obsCount c obs) o.2 (obsSum c obs) (by omega)]
      have hcount : obsCount c (o :: obs) = 1 + obsCount c obs := by
        unfold obsCount
        rw [List.countP_cons]
        simp [h, Nat.add_comm]
      have hsum : obsSum c (o :: obs) = o.2 + obsSum c obs := by
        unfold obsSum
        rw [List.filter_cons, if_pos (by simpa using h)]
        simp
      rw [hcount, hsum]
    · rw [if_neg h]
      have hcount : obsCount c (o :: obs) = obsCount c obs := by
        unfold obsCount
        rw [List.countP_cons]
        simp [h]
      have hsum : obsSum c (o :: obs) = obsSum c obs := by
        unfold obsSum
        rw [List.filter_cons, if_neg (by simpa using h)]
      rw [hcount, hsum]

/-- The per-image observation lists that actually reach the aggregation loop:
one entry per readable image, in path order. -/
def allObs (cfg : Config) (fit : List RGB → List RGB × List ℕ)
    (read : String → Option (List RGB)) (paths : List String) :
    List (List (String × ℚ)) :=
  paths.filterMap (process_path cfg fit read)

lemma pib_lookup (cfg : Config) (fit : List RGB → List RGB × List ℕ)
    (read : String → Option (List RGB)) (c : String) :
    ∀ (paths : List String) (acc : ColorData × ℕ),
      lookupColor c ((paths.foldl (pibStep cfg fit read) acc).1) =
        mergeStats (lookupColor c acc.1)
          (((allObs cfg fit read paths).map (obsCount c)).sum)
          (((allObs cfg fit read paths).map (obsSum c)).sum) := by
  intro paths
  induction paths with
  | nil => intro acc; simp [allObs, mergeStats_zero]
  | cons q paths ih =>
    intro acc
    rw [List.foldl_cons]
    cases hq : process_path cfg fit read q with
    | none =>
      rw [show pibStep cfg fit read acc q = acc from by simp [pibStep, hq]]
      rw [ih acc]
      have : allObs cfg fit read (q :: paths) = allObs cfg fit read paths := by
        simp [allObs, List.filterMap_cons, hq]
      rw [this]
    | some obs =>
      rw [show pibStep cfg fit read acc q = (addImage acc.1 obs, acc.2 + 1) from by
        simp [pibStep, hq]]
      rw [ih _]
      have hall : allObs cfg fit read (q :: paths) = obs :: allObs cfg fit read paths := by
        simp [allObs, List.filterMap_cons, hq]
      rw [hall]
      simp only [List.map_cons, List.sum_cons]
      rw [lookup_addImage,
        mergeStats_comp _ _ _ _ _ (obsSum_eq_zero_of_count c obs)]

lemma pib_total (cfg : Config) (fit : List RGB → List RGB × List ℕ)
    (read : String → Option (List RGB)) :
    ∀ (paths : List String) (acc : ColorData × ℕ),
      (paths.foldl (pibStep cfg fit read) acc).2 =
        acc.2 + paths.countP (fun p => (process_path cfg fit read p).isSome) := by
  intro paths
  induction paths with
  | nil => intro acc; simp
  | cons q paths ih =>
    intro acc
    rw [List.foldl_cons, List.countP_cons]
    cases hq : process_path cfg fit read q with
    | none =>
      rw [show pibStep cfg fit read acc q = acc from by simp [pibStep, hq]]
      rw [ih acc]
      simp [hq]
    | some obs =>
      rw [show pibStep cfg fit read acc q = (addImage acc.1 obs, acc.2 + 1) from by
        simp [pibStep, hq]]
      rw [ih _]
      simp [hq]
      omega

/-- The `CollectionColorStats` mapping produced by `process_image_batch`: for
each color, its `count` and `average_percentage = total_percentage / count`
(lines 149-151). -/
def collection_color_stats (cfg : Config) (fit : List RGB → List RGB × List ℕ)
    (read : String → Option (List RGB)) (paths : List String) :
    String → Option (ℕ × ℚ) :=
  fun c =>
    (lookupColor c (process_image_batch cfg fit read paths).1).map
      (fun kt => (kt.1, kt.2 / (kt.1 : ℚ)))

/-- C8: processing a collection's images in any permutation yields identical
`CollectionColorStats` — exactly the same per-color `(count, average_percentage)`
mapping (exact rational arithmetic), and the same number of processed images. -/
theorem aggregation_perm_invariant (cfg : Config) (fit : List RGB → List RGB × List ℕ)
    (read : String → Option (List RGB)) (paths₁ paths₂ : List String)
    (hperm : paths₁.Perm paths₂) :
    collection_color_stats cfg fit read paths₁ = collection_color_stats cfg fit read paths₂ ∧
    (process_image_batch cfg fit read paths₁).2 =
      (process_image_batch cfg fit read paths₂).2 := by
  have hobs : (allObs cfg fit read paths₁).Perm (allObs cfg fit read paths₂) :=
    hperm.filterMap _
  constructor
  · funext c
    unfold collection_color_stats process_image_batch
    rw [pib_lookup, pib_lookup, (hobs.map (obsCount c)).sum_eq,
      (hobs.map (obsSum c)).sum_eq]
  · unfold process_image_batch
    rw [pib_total, pib_total, hperm.countP_eq]

lemma pib_skip_unreadable (cfg : Config) (fit : List RGB → List RGB × List ℕ)
    (read : String → Option (List RGB)) (p : String) (l₁ l₂ : List String)
    (hp : read p = none) :
    process_image_batch cfg fit read (l₁ ++ p :: l₂) =
      process_image_batch cfg fit read (l₁ ++ l₂) := by
  unfold process_image_batch
  rw [List.foldl_append, List.foldl_append, List.foldl_cons,
    show pibStep cfg fit read (List.foldl (pibStep cfg fit read) ([], 0) l₁) p =
      List.foldl (pibStep cfg fit read) ([], 0) l₁ from by
        simp [pibStep, process_path, hp]]

/-- C6 (amended): a file the reader cannot decode contributes nothing to the
aggregated color statistics — the collection result is the same as without it —
but `analyze_collection` reports `total_images` as the number of files found,
so the unreadable file still increments the reported `total_images` by one. -/
theorem unreadable_file_skipped (cfg : Config) (fit : List RGB → List RGB × List ℕ)
    (read : String → Option (List RGB)) (p : String) (l₁ l₂ : List String)
    (hp : read p = none) (hne : l₁ ++ l₂ ≠ []) :
    analyze_collection cfg fit read (l₁ ++ p :: l₂) =
      (analyze_collection cfg fit read (l₁ ++ l₂)).map
        (fun s => ⟨s.total_images + 1, s.colors⟩) := by
  unfold analyze_collection
  have h1 : (l₁ ++ p :: l₂).isEmpty = false := by
    rcases l₁ with _ | ⟨a, l⟩ <;> simp
  have h2 : (l₁ ++ l₂).isEmpty = false := by
    cases hll : l₁ ++ l₂ with
    | nil => exact absurd hll hne
    | cons a l => simp
  rw [h1, h2]
  simp only [Bool.false_eq_true, if_false, Option.map_some']
  rw [pib_skip_unreadable cfg fit read p l₁ l₂ hp]
  have hlen : (l₁ ++ p :: l₂).length = (l₁ ++ l₂).length + 1 := by
    simp [List.length_append]
    omega
  rw [hlen]

/-- The `colors` mapping of an `analyze_collection` result (empty when the
result is `{}`). -/
def collection_colors (o : Option CollectionStats) : List (String × ℕ × ℚ) :=
  (o.map CollectionStats.colors).getD []

/-- C7: the retained colors of a collection result are ordered by count
descending, ties broken by average percentage descending. -/
theorem collection_colors_sorted (cfg : Config) (fit : List RGB → List RGB × List ℕ)
    (read : String → Option (List RGB)) (paths : List String) :
    List.Pairwise colorKeyGE (collection_colors (analyze_collection cfg fit read paths)) := by
  unfold analyze_collection collection_colors
  by_cases h : paths.isEmpty
  · simp [h]
  · have h' : paths.isEmpty = false := by simpa using h
    rw [h']
    simp only [Bool.false_eq_true, if_false, Option.map_some', Option.getD_some]
    exact (List.sorted_insertionSort colorKeyGE _).sublist (List.take_sublist _ _)

lemma analyze_collection_colors_le (cfg : Config) (fit : List RGB → List RGB × List ℕ)
    (read : String → Option (List RGB)) (paths : List String) (s : CollectionStats)
    (h : analyze_collection cfg fit read paths = some s) :
    s.colors.length ≤ cfg.n_colors := by
  unfold analyze_collection at h
  by_cases he : paths.isEmpty
  · simp [he] at h
  · have he' : paths.isEmpty = false := by simpa using he
    rw [he'] at h
    simp only [Bool.false_eq_true, if_false, Option.some.injEq] at h
    rw [← h]
    exact List.length_take_le _ _

/-- C10: the `colors` mapping of every collection result contains at most
`n_colors` keys, and hence so does every per-designer entry persisted by
`create_color_dictionary`. -/
theorem collection_colors_at_most_n (cfg : Config) (fit : List RGB → List RGB × List ℕ)
    (read : String → Option (List RGB)) (filesOf : String → List String)
    (write : List (String × CollectionStats) → Except Unit Unit)
    (paths : List String) (dirs : List String) :
    (collection_colors (analyze_collection cfg fit read paths)).length ≤ cfg.n_colors ∧
    List.Forall (fun e => e.2.colors.length ≤ cfg.n_colors)
      (create_color_dictionary cfg fit read filesOf write dirs) := by
  constructor
  · unfold collection_colors
    cases ho : analyze_collection cfg fit read paths with
    | none => simp
    | some s =>
      simpa using analyze_collection_colors_le cfg fit read paths s ho
  · rw [List.forall_iff_forall_mem]
    intro e he
    unfold create_color_dictionary at he
    by_cases hd : dirs.isEmpty
    · simp [hd] at he
    · have hd' : dirs.isEmpty = false := by simpa using hd
      rw [hd'] at he
      simp only [Bool.false_eq_true, if_false] at he
      rcases hwr : write (dirs.filterMap
          (fun d => (analyze_collection cfg fit read (filesOf d)).map (fun s => (d, s))))
        with _ | _
      · rw [hwr] at he
        simp at he
      · rw [hwr] at he
        simp at he
        rcases he with ⟨d, hdm, s, hs, hes⟩
        rw [← hes]
        exact analyze_collection_colors_le cfg fit read (filesOf d) s hs

lemma extract_colors_fst (fit : List RGB → List RGB × List ℕ) (pixels : List RGB) :
    (extract_colors fit pixels).1 =
      ((fit pixels).1.map clip255).map (fun c => toHex c.1 c.2.1 c.2.2) := rfl

lemma extract_colors_snd (fit : List RGB → List RGB × List ℕ) (pixels : List RGB) :
    (extract_colors fit pixels).2 =
      (bincount (fit pixels).2).map
        (fun (k : ℕ) => (k : ℚ) / (pixels.length : ℚ) * 100) := rfl

lemma bincount_mem (l : List ℕ) (a : ℕ) (h : a ∈ bincount l) : ∃ i, a = l.count i := by
  unfold bincount at h
  by_cases he : l = []
  · simp [he] at h
  · rw [if_neg he] at h
    rcases List.mem_map.mp h with ⟨i, _, hieq⟩
    exact ⟨i, hieq.symm⟩

/-- C4 (amended): the per-image retained list has at most `2 * n_colors`
observations (the code filters the `2 * n_colors` clusters but never truncates
to `n_colors` per image), and every retained percentage lies in [0, 100]. -/
theorem filtered_length_and_percentage_bounds (cfg : Config)
    (fit : List RGB → List RGB × List ℕ) (pixels : List RGB)
    (hc : ((fit pixels).1).length = 2 * cfg.n_colors)
    (hl : ((fit pixels).2).length = pixels.length) :
    (image_results cfg fit pixels).length ≤ 2 * cfg.n_colors ∧
    List.Forall (fun o => 0 ≤ o.2 ∧ o.2 ≤ 100) (image_results cfg fit pixels) := by
  constructor
  · unfold image_results filtered_results
    calc ((((extract_colors fit pixels).1).zip ((extract_colors fit pixels).2)).filter
            (fun cp => decide (cfg.min_area_percentage ≤ cp.2) &&
              ! is_skin_tone (hexToBGR cp.1))).length
        ≤ (((extract_colors fit pixels).1).zip ((extract_colors fit pixels).2)).length :=
          List.length_filter_le _ _
      _ ≤ ((extract_colors fit pixels).1).length := by
          rw [List.length_zip]
          exact min_le_left _ _
      _ = 2 * cfg.n_colors := by
          rw [extract_colors_fst, List.length_map, List.length_map, hc]
  · rw [List.forall_iff_forall_mem]
    intro o ho
    unfold image_results filtered_results at ho
    obtain ⟨a, b⟩ := o
    have hz := List.mem_of_mem_filter ho
    have hp2 := (List.of_mem_zip hz).2
    rw [extract_colors_snd] at hp2
    rcases List.mem_map.mp hp2 with ⟨k, hk, hkeq⟩
    rcases bincount_mem _ _ hk with ⟨i, hki⟩
    constructor
    · rw [← hkeq]
      positivity
    · by_cases hlen : pixels.length = 0
      · have hnil : (fit pixels).2 = [] := List.length_eq_zero.mp (hl.trans hlen)
        rw [hnil] at hk
        simp [bincount] at hk
      · have hkle : k ≤ pixels.length := by
          rw [hki, ← hl]
          exact List.count_le_length _ _
        have hpos : (0 : ℚ) < (pixels.length : ℚ) := by
          exact_mod_cast Nat.pos_of_ne_zero hlen
        rw [← hkeq]
        calc (k : ℚ) / (pixels.length : ℚ) * 100 ≤ 1 * 100 := by
              apply mul_le_mul_of_nonneg_right _ (by norm_num)
              exact (div_le_one hpos).mpr (by exact_mod_cast hkle)
          _ = 100 := one_mul _

/-- C9: the extractor is deterministic — two runs with the same pixel grid,
the same configuration and the same random seed produce the identical ordered
list of (color, percentage) observations.  The clustering model is an
arbitrary function of (config, seed), reflecting that `MiniBatchKMeans` with
integer `random_state = 42` re-seeds identically on every `fit` call. -/
theorem extractor_deterministic
    (kmeansFam : Config → ℕ → List RGB → List RGB × List ℕ)
    (cfg₁ cfg₂ : Config) (seed₁ seed₂ : ℕ) (px₁ px₂ : List RGB)
    (hcfg : cfg₁ = cfg₂) (hseed : seed₁ = seed₂) (hpx : px₁ = px₂) :
    ((extract_colors (kmeansFam cfg₁ seed₁) px₁).1).zip
        ((extract_colors (kmeansFam cfg₁ seed₁) px₁).2) =
      ((extract_colors (kmeansFam cfg₂ seed₂) px₂).1).zip
        ((extract_colors (kmeansFam cfg₂ seed₂) px₂).2) := by
  subst hcfg
  subst hseed
  subst hpx
  rfl

/-- C9 witness: a concrete instantiation of the determinism theorem. -/
theorem extractor_deterministic_witness :
    ((extract_colors ((fun _ _ => fun _ => ([], [])) (⟨5, 2⟩ : Config) 42) []).1).zip
        ((extract_colors ((fun _ _ => fun _ => ([], [])) (⟨5, 2⟩ : Config) 42) []).2) =
      ((extract_colors ((fun _ _ => fun _ => ([], [])) (⟨5, 2⟩ : Config) 42) []).1).zip
        ((extract_colors ((fun _ _ => fun _ => ([], [])) (⟨5, 2⟩ : Config) 42) []).2) :=
  extractor_deterministic (fun _ _ => fun _ => ([], [])) ⟨5, 2⟩ ⟨5, 2⟩ 42 42 [] [] rfl rfl rfl

/-- C2 (amended): on a directory with zero eligible image files,
`analyze_collection` returns the empty dict `{}` as a normal value — it
raises no `NoImagesFoundError` (no such error exists in the code) — and it
performs no write (the function has no persistence step). -/
theorem analyze_collection_empty_dict (cfg : Config)
    (fit : List RGB → List RGB × List ℕ) (read : String → Option (List RGB)) :
    analyze_collectionE cfg fit read [] = Except.ok none := rfl

/-- C2 counterexample: at the concrete empty path list, `analyze_collection`
returns `Except.ok` with the empty result — it does not fail with an error. -/
theorem analyze_collection_empty_returns_ok :
    analyze_collectionE ⟨5, 2⟩ (fun _ => ([], [])) (fun _ => none) [] =
      Except.ok none := rfl

/-- C3 (amended): when writing the output JSON fails, the blanket exception
handlers of `create_color_dictionary` and `analyze_season` catch the failure
and return the empty dict `{}`; no `PersistenceError` propagates to the
caller, and the computed results are silently dropped (beyond a log line). -/
theorem write_failure_returns_empty (cfg : Config)
    (fit : List RGB → List RGB × List ℕ) (read : String → Option (List RGB))
    (filesOf : String → List String)
    (write : List (String × CollectionStats) → Except Unit Unit)
    (dirs : List String) (hw : ∀ x, write x = Except.error ()) :
    create_color_dictionaryE cfg fit read filesOf write dirs = Except.ok [] ∧
    analyze_seasonE cfg fit read filesOf write dirs = Except.ok [] := by
  constructor
  · unfold create_color_dictionaryE create_color_dictionary
    by_cases hd : dirs.isEmpty
    · simp [hd]
    · have hd' : dirs.isEmpty = false := by simpa using hd
      simp [hd', hw]
  · unfold analyze_seasonE analyze_season
    simp [hw]

/-- C3 witness: the amended statement at a concrete failing writer. -/
theorem write_failure_returns_empty_witness :
    create_color_dictionaryE ⟨5, 2⟩ (fun _ => ([], [])) (fun _ => none) (fun _ => [])
        (fun _ => Except.error ()) ["x"] = Except.ok [] ∧
    analyze_seasonE ⟨5, 2⟩ (fun _ => ([], [])) (fun _ => none) (fun _ => [])
        (fun _ => Except.error ()) ["x"] = Except.ok [] :=
  write_failure_returns_empty ⟨5, 2⟩ (fun _ => ([], [])) (fun _ => none) (fun _ => [])
    (fun _ => Except.error ()) ["x"] (fun _ => rfl)

/-! ### Concrete scenarios

`cS`/`pxS`/`fS`/`rS`: a collection with one readable single-gray-pixel image
at path "a" (every other path is unreadable), the clustering model returning a
gray center for it.  `cX`/`pxX`/`fX`: an image splitting evenly into two gray
clusters with `n_colors = 1`.  `fSkin`/`pxSkin`: the specification's own
scenario — an image that is 60% garment color `#336699` and 40% skin tone
`#d9a789`. -/

def cS : Config := ⟨5, 2⟩

def pxS : List RGB := [(100, 100, 100)]

def fS : List RGB → List RGB × List ℕ :=
  fun _ => ([(100, 100, 100), (200, 200, 200)], [0])

def rS : String → Option (List RGB) := fun p => if p = "a" then some pxS else none

lemma extract_S1 : (extract_colors fS pxS).1 = ["#646464", "#c8c8c8"] := rfl

lemma extract_S2 : (extract_colors fS pxS).2 = [((1 : ℕ) : ℚ) / ((1 : ℕ) : ℚ) * 100] := rfl

lemma extract_S2' : (extract_colors fS pxS).2 = [100] := by
  rw [extract_S2]
  norm_num

lemma image_results_S : image_results cS fS pxS = [("#646464", 100)] := by
  unfold image_results
  rw [extract_S1, extract_S2']
  rfl

lemma pib_step_S_a : pibStep cS fS rS ([], 0) "a" = ([("#646464", 1, 100)], 1) := by
  have h : process_path cS fS rS "a" = some [("#646464", 100)] := by
    unfold process_path
    rw [show rS "a" = some pxS from rfl, Option.map_some', image_results_S]
  simp [pibStep, h, addImage, addObs]

lemma pib_S_ab : process_image_batch cS fS rS ["a", "bad"] = ([("#646464", 1, 100)], 1) := by
  unfold process_image_batch
  rw [List.foldl_cons, pib_step_S_a, List.foldl_cons, List.foldl_nil]
  simp [pibStep, process_path, show rS "bad" = none from rfl]

lemma pib_S_a : process_image_batch cS fS rS ["a"] = ([("#646464", 1, 100)], 1) := by
  unfold process_image_batch
  rw [List.foldl_cons, pib_step_S_a, List.foldl_nil]

lemma averaged_S : averaged [("#646464", 1, 100)] = [("#646464", 1, 100)] := by
  unfold averaged
  rw [List.map_cons, List.map_nil]
  norm_num

lemma analyze_S_ab :
    analyze_collection cS fS rS ["a", "bad"] = some ⟨2, [("#646464", 1, 100)]⟩ := by
  unfold analyze_collection
  rw [show (["a", "bad"] : List String).isEmpty = false from rfl]
  simp only [Bool.false_eq_true, if_false, pib_S_ab, averaged_S]
  rfl

lemma analyze_S_a :
    analyze_collection cS fS rS ["a"] = some ⟨1, [("#646464", 1, 100)]⟩ := by
  unfold analyze_collection
  rw [show (["a"] : List String).isEmpty = false from rfl]
  simp only [Bool.false_eq_true, if_false, pib_S_a, averaged_S]
  rfl

/-- C6 counterexample: one readable image plus one unreadable file does not
yield statistics identical to the readable image alone — the reported
`total_images` is 2 (files found) versus 1, though the colors agree. -/
theorem unreadable_changes_total_images :
    analyze_collection cS fS rS ["a", "bad"] ≠ analyze_collection cS fS rS ["a"] := by
  rw [analyze_S_ab, analyze_S_a]
  intro h
  simp at h

/-- C6 witness: the amended statement at the concrete collection
`["a", "bad"]` with `"bad"` unreadable. -/
theorem unreadable_file_skipped_witness :
    analyze_collection cS fS rS (["a"] ++ "bad" :: []) =
      (analyze_collection cS fS rS (["a"] ++ [])).map
        (fun s => ⟨s.total_images + 1, s.colors⟩) :=
  unreadable_file_skipped cS fS rS "bad" ["a"] [] rfl (by simp)

/-- C8 witness: permutation invariance at the concrete two-file collection. -/
theorem aggregation_perm_invariant_witness :
    collection_color_stats cS fS rS ["a", "bad"] =
        collection_color_stats cS fS rS ["bad", "a"] ∧
    (process_image_batch cS fS rS ["a", "bad"]).2 =
      (process_image_batch cS fS rS ["bad", "a"]).2 :=
  aggregation_perm_invariant cS fS rS ["a", "bad"] ["bad", "a"]
    (List.Perm.swap "bad" "a" [])

/-- C3 counterexample: with a failing writer, `create_color_dictionary`
completes normally with the empty dict (`Except.ok []`), although the same
inputs with a succeeding writer produce one designer entry — the write
failure is swallowed and the results are lost, not propagated. -/
theorem create_color_dictionary_swallows_write_failure :
    create_color_dictionaryE cS fS rS (fun _ => ["a"]) (fun _ => Except.error ()) ["x"] =
        Except.ok [] ∧
    (create_color_dictionary cS fS rS (fun _ => ["a"]) (fun _ => Except.ok ()) ["x"]).length
        = 1 :=
  ⟨rfl, rfl⟩

def cX : Config := ⟨1, 2⟩

def pxX : List RGB := [(100, 100, 100), (200, 200, 200)]

def fX : List RGB → List RGB × List ℕ :=
  fun _ => ([(100, 100, 100), (200, 200, 200)], [0, 1])

lemma extract_X1 : (extract_colors fX pxX).1 = ["#646464", "#c8c8c8"] := rfl

lemma extract_X2 : (extract_colors fX pxX).2 =
    [((1 : ℕ) : ℚ) / ((2 : ℕ) : ℚ) * 100, ((1 : ℕ) : ℚ) / ((2 : ℕ) : ℚ) * 100] := rfl

lemma extract_X2' : (extract_colors fX pxX).2 = [50, 50] := by
  rw [extract_X2]
  norm_num

lemma image_results_X : image_results cX fX pxX = [("#646464", 50), ("#c8c8c8", 50)] := by
  unfold image_results
  rw [extract_X1, extract_X2']
  rfl

/-- C4 counterexample: with `n_colors = 1` (so `2 * n_colors = 2` clusters)
and two surviving half-area gray clusters, the per-image retained list has 2
observations, exceeding `n_colors` — the code never truncates per image. -/
theorem filtered_exceeds_n_colors :
    ¬((image_results cX fX pxX).length ≤ cX.n_colors) := by
  rw [image_results_X]
  decide

/-- C4 witness: the amended bounds at the concrete two-cluster image. -/
theorem filtered_length_and_percentage_bounds_witness :
    (image_results cX fX pxX).length ≤ 2 * cX.n_colors ∧
    List.Forall (fun o => 0 ≤ o.2 ∧ o.2 ≤ 100) (image_results cX fX pxX) :=
  filtered_length_and_percentage_bounds cX fX pxX rfl rfl

def pxSkin : List RGB :=
  [(217, 167, 137), (217, 167, 137), (217, 167, 137), (51, 102, 153), (51, 102, 153)]

def fSkin : List RGB → List RGB × List ℕ :=
  fun _ => ([(217, 167, 137), (51, 102, 153)], [0, 0, 0, 1, 1])

def rSkin : String → Option (List RGB) := fun _ => some pxSkin

lemma extract_Skin1 : (extract_colors fSkin pxSkin).1 = ["#d9a789", "#336699"] := rfl

lemma extract_Skin2 : (extract_colors fSkin pxSkin).2 =
    [((3 : ℕ) : ℚ) / ((5 : ℕ) : ℚ) * 100, ((2 : ℕ) : ℚ) / ((5 : ℕ) : ℚ) * 100] := rfl

lemma extract_Skin2' : (extract_colors fSkin pxSkin).2 = [60, 40] := by
  rw [extract_Skin2]
  norm_num

lemma image_results_Skin : image_results cS fSkin pxSkin = [("#d9a789", 60)] := by
  unfold image_results
  rw [extract_Skin1, extract_Skin2']
  rfl

/-- C1: on the specification's own scenario (60% garment color `#336699`,
40% skin tone `#d9a789`), the filter of `process_image_batch` retains exactly
the skin color `#d9a789` — which the YCrCb box test classifies as skin when
applied to its RGB value — and discards the garment color.  The cause: the
caller converts the hex string to a (B, G, R) triple, but `is_skin_tone`
converts its argument with `COLOR_RGB2YCrCb`, i.e. expects (R, G, B), so the
box is tested on the channel-swapped triple. -/
theorem skin_filter_keeps_skin_color :
    process_path cS fSkin rSkin "img" = some [("#d9a789", 60)] ∧
    is_skin_tone (217, 167, 137) = true ∧
    is_skin_tone (hexToBGR "#d9a789") = false := by
  refine ⟨?_, rfl, rfl⟩
  unfold process_path
  rw [show rSkin "img" = some pxSkin from rfl, Option.map_some', image_results_Skin]

/-- C5: pure black, pure white and the fully saturated primaries are never
classified as skin by `is_skin_tone`. -/
theorem is_skin_tone_extremes_false :
    is_skin_tone (0, 0, 0) = false ∧ is_skin_tone (255, 255, 255) = false ∧
    is_skin_tone (255, 0, 0) = false ∧ is_skin_tone (0, 255, 0) = false ∧
    is_skin_tone (0, 0, 255) = false :=
  ⟨rfl, rfl, rfl, rfl, rfl⟩
